import Mathlib

/-!
Verification of the tenant-lifecycle core of a multi-tenant organization
management service.  The Python sources (`app/core/database.py`,
`app/services/organization_service.py`, `app/services/admin_service.py`,
`app/utils/jwt_handler.py`, `app/utils/dependencies.py`) are shallowly
embedded: strings are `List Char` (ASCII fragment of Python string
operations), the MongoDB master database and the tenant collections are an
explicit state record, and every service operation is a pure state
transformer returning `Except` for Python `raise`.
-/

set_option maxRecDepth 4000

/-- Python strings are modelled as lists of characters. -/
abbrev Str := List Char

/-- ASCII whitespace as stripped by Python's `str.strip()`
(space, tab, newline, vertical tab, form feed, carriage return). -/
def isPySpace (c : Char) : Bool :=
  c.toNat = 32 || c.toNat = 9 || c.toNat = 10 || c.toNat = 11 ||
  c.toNat = 12 || c.toNat = 13

/-- Model of Python `str.lower()` on a single character (ASCII fragment):
code points 65-90 (`A`-`Z`) are shifted by 32 into `a`-`z`. -/
def pyToLower (c : Char) : Char :=
  if 65 ≤ c.toNat ∧ c.toNat ≤ 90 then Char.ofNat (c.toNat + 32) else c

/-- Model of Python `str.lower()`. -/
def pyLower (s : Str) : Str := s.map pyToLower

/-- Drop the longest suffix whose characters all satisfy `p`. -/
def dropTrailWhile (p : Char → Bool) (s : Str) : Str :=
  (s.reverse.dropWhile p).reverse

/-- Strip characters satisfying `p` from both ends
(model of Python `str.strip(chars)`). -/
def pyStripBy (p : Char → Bool) (s : Str) : Str :=
  dropTrailWhile p (s.dropWhile p)

/-- Model of Python `str.strip()` (whitespace on both ends). -/
def pyStrip (s : Str) : Str := pyStripBy isPySpace s

/-- The normalized organization name used throughout
`organization_service.py`: `name.lower().strip()`. -/
def pyNorm (s : Str) : Str := pyStrip (pyLower s)

/-- The character class `[a-zA-Z0-9]` of the regex in `normalize_org_name`. -/
def isAlnumAZ (c : Char) : Bool :=
  (97 ≤ c.toNat && c.toNat ≤ 122) || (65 ≤ c.toNat && c.toNat ≤ 90) ||
  (48 ≤ c.toNat && c.toNat ≤ 57)

/-- First phase of `re.sub(r"[^a-zA-Z0-9]+", "_", s)`: map every character
outside `[a-zA-Z0-9]` to an underscore. -/
def toUnderscore (c : Char) : Char := if isAlnumAZ c then c else '_'

/-- Second phase of the regex substitution: collapse each run of
consecutive underscores to a single underscore, so that a maximal run of
non-alphanumeric characters ends up as one `_`. -/
def collapseUnd : Str → Str
  | [] => []
  | [c] => [c]
  | a :: b :: rest =>
    if a = '_' && b = '_' then collapseUnd (b :: rest)
    else a :: collapseUnd (b :: rest)

/-- Model of `re.sub(r"[^a-zA-Z0-9]+", "_", s)`: every maximal run of
characters outside `[a-zA-Z0-9]` is replaced by a single underscore. -/
def subNonAlnumRuns (s : Str) : Str := collapseUnd (s.map toUnderscore)

/-- The underscore character class for `str.strip("_")`. -/
def isUnd (c : Char) : Bool := c = '_'

/-- `normalize_org_name` from `app/core/database.py`:
`slug = re.sub(r"[^a-zA-Z0-9]+", "_", organization_name.strip().lower())`
then `slug.strip("_") or "org"`. -/
def normalize_org_name (organization_name : Str) : Str :=
  let slug := subNonAlnumRuns (pyLower (pyStrip organization_name))
  let t := pyStripBy isUnd slug
  if t = [] then ("org").data else t

/-- `build_org_collection_name` from `app/core/database.py`:
`f"org_{normalize_org_name(organization_name)}"`. -/
def build_org_collection_name (organization_name : Str) : Str :=
  ("org_").data ++ normalize_org_name organization_name

/-- The character class `[a-z0-9]` used by the specification's wording of
the collection-naming rule. -/
def isLowerAlnum (c : Char) : Bool :=
  (97 ≤ c.toNat && c.toNat ≤ 122) || (48 ≤ c.toNat && c.toNat ≤ 57)

/-- Character replacement of the specification's rule: characters outside
`[a-z0-9]` become underscores. -/
def specToUnd (c : Char) : Char := if isLowerAlnum c then c else '_'

/-- The collection-name slug exactly as the specification words it:
lowercase the name, replace every maximal run of characters outside
`[a-z0-9]` by a single underscore, trim leading/trailing underscores, and
fall back to the fixed default token when the result is empty. -/
def specSlugRule (name : Str) : Str :=
  let t := pyStripBy isUnd (collapseUnd ((pyLower name).map specToUnd))
  if t = [] then ("org").data else t

/-- Collection name according to the specification's rule: fixed prefix
`org_` plus the slug. -/
def specCollectionName (name : Str) : Str :=
  ("org_").data ++ specSlugRule name

/-! ## Data model: the master database and tenant collections -/

/-- Tenant-collection documents are opaque; they are modelled by
identifiers. -/
abbrev Doc := Nat

/-- An organization document in the master `organizations` collection, as
built by `create_organization`. -/
structure OrgDoc where
  oid : Nat
  name : Str
  name_lower : Str
  email : Str
  password_hash : Str
  collection_name : Str
  created_at : Nat
  updated_at : Nat
deriving DecidableEq

/-- Mutating store operations, recorded in order of execution so that
ordering claims (record update before migration, collection drop before
record deletion) can be stated. -/
inductive Event where
  | createCollection (name : Str)
  | dropCollection (name : Str)
  | clearCollection (name : Str)
  | insertManyDocs (name : Str) (docs : List Doc)
  | insertRecord (oid : Nat)
  | updateRecord (oid : Nat)
  | deleteRecord (oid : Nat)
deriving DecidableEq

/-- The state visible to the service: the master `organizations`
collection, the tenant collections of the same database (name paired with
document list), a fresh-id counter for inserted records, the current
clock (`datetime.now`), and the trace of mutating store operations. -/
structure DB where
  organizations : List OrgDoc
  collections : List (Str × List Doc)
  nextId : Nat
  now : Nat
  events : List Event
deriving DecidableEq

/-- `db.list_collection_names()`. -/
def list_collection_names (db : DB) : List Str :=
  db.collections.map Prod.fst

/-- `db.create_collection(name)`: a new, empty tenant collection. -/
def create_collection (db : DB) (name : Str) : DB :=
  { db with
    collections := db.collections ++ [(name, [])]
    events := db.events ++ [Event.createCollection name] }

/-- `db.drop_collection(name)` / `collection.drop()`: removes the
collection; a no-op on the state when the collection does not exist
(MongoDB drops are idempotent). -/
def drop_collection (db : DB) (name : Str) : DB :=
  { db with
    collections := db.collections.filter (fun p => decide (p.1 ≠ name))
    events := db.events ++ [Event.dropCollection name] }

/-- `db[name].find().to_list()`: all documents of a tenant collection
(empty when the collection does not exist). -/
def coll_docs (db : DB) (name : Str) : List Doc :=
  ((db.collections.find? (fun p => decide (p.1 = name))).map Prod.snd).getD []

/-- Update the first element of a list satisfying `p` (MongoDB single-
document operations affect the first match in natural order). -/
def updateFirst (p : α → Bool) (f : α → α) : List α → List α
  | [] => []
  | x :: xs => if p x then f x :: xs else x :: updateFirst p f xs

/-- Remove the first element of a list satisfying `p`. -/
def eraseFirst (p : α → Bool) : List α → List α
  | [] => []
  | x :: xs => if p x then xs else x :: eraseFirst p xs

/-- `db[name].delete_many({})`: clear all documents of the collection
(no-op on a missing collection). -/
def clear_collection (db : DB) (name : Str) : DB :=
  { db with
    collections := db.collections.map
      (fun p => if p.1 = name then (p.1, []) else p)
    events := db.events ++ [Event.clearCollection name] }

/-- `db[name].insert_many(docs)`: append the documents to the collection
(MongoDB creates the collection implicitly when it is missing). -/
def insert_many (db : DB) (name : Str) (docs : List Doc) : DB :=
  { db with
    collections :=
      if (db.collections.find? (fun p => decide (p.1 = name))).isSome then
        updateFirst (fun p => decide (p.1 = name))
          (fun p => (p.1, p.2 ++ docs)) db.collections
      else db.collections ++ [(name, docs)]
    events := db.events ++ [Event.insertManyDocs name docs] }

/-- `organizations.find_one({"name_lower": n})`: first record in natural
order whose `name_lower` equals `n`. -/
def find_one_by_name_lower (db : DB) (n : Str) : Option OrgDoc :=
  db.organizations.find? (fun d => decide (d.name_lower = n))

/-- `organizations.find_one({"email": e})`. -/
def find_one_by_email (db : DB) (e : Str) : Option OrgDoc :=
  db.organizations.find? (fun d => decide (d.email = e))

/-- `organizations.insert_one(doc)` with the freshly assigned id already
placed in the document by the caller. -/
def insert_record (db : DB) (doc : OrgDoc) : DB :=
  { db with
    organizations := db.organizations ++ [doc]
    nextId := db.nextId + 1
    events := db.events ++ [Event.insertRecord doc.oid] }

/-- The `$set` dictionary staged by `update_organization`
(`updated_at` is added just before persisting). -/
structure Updates where
  name : Option Str := none
  name_lower : Option Str := none
  collection_name : Option Str := none
  email : Option Str := none
  password_hash : Option Str := none
  updated_at : Option Nat := none
deriving DecidableEq

/-- Python `if updates:` — the staged dictionary is empty
(before `updated_at` is added). -/
def Updates.isEmptyDict (u : Updates) : Bool :=
  u.name.isNone && u.name_lower.isNone && u.collection_name.isNone &&
  u.email.isNone && u.password_hash.isNone && u.updated_at.isNone

/-- Apply a `$set` dictionary to a record (also models the in-memory
`org_doc.update(updates)`). -/
def applyUpdates (u : Updates) (d : OrgDoc) : OrgDoc :=
  { d with
    name := u.name.getD d.name
    name_lower := u.name_lower.getD d.name_lower
    collection_name := u.collection_name.getD d.collection_name
    email := u.email.getD d.email
    password_hash := u.password_hash.getD d.password_hash
    updated_at := u.updated_at.getD d.updated_at }

/-- `organizations.update_one({"_id": oid}, {"$set": u})`. -/
def update_record (db : DB) (oid : Nat) (u : Updates) : DB :=
  { db with
    organizations :=
      updateFirst (fun d => decide (d.oid = oid)) (applyUpdates u)
        db.organizations
    events := db.events ++ [Event.updateRecord oid] }

/-- `organizations.delete_one({"_id": oid})`. -/
def delete_record (db : DB) (oid : Nat) : DB :=
  { db with
    organizations := eraseFirst (fun d => decide (d.oid = oid)) db.organizations
    events := db.events ++ [Event.deleteRecord oid] }

/-! ## Service layer -/

/-- Python `ValueError(msg)` raised by the services. -/
inductive ServiceError where
  | valueError (msg : Str)
deriving DecidableEq

/-- Request schema `OrganizationCreate`. -/
structure OrganizationCreate where
  organization_name : Str
  email : Str
  password : Str
deriving DecidableEq

/-- Request schema `OrganizationUpdate` (all fields optional). -/
structure OrganizationUpdate where
  organization_name : Option Str := none
  email : Option Str := none
  password : Option Str := none
deriving DecidableEq

/-- Response schema `OrganizationResponse` (never includes the password
hash). -/
structure OrganizationResponse where
  id : Nat
  organization_name : Str
  email : Str
  collection_name : Str
  created_at : Nat
  updated_at : Nat
deriving DecidableEq

/-- Python truthiness of an optional string field
(`None` and the empty string are falsy). -/
def pyTruthy : Option Str → Bool
  | none => false
  | some s => decide (s ≠ [])

/-- Modelled from the spec: `app/utils/security.py` (the Credential
Hasher, class `PasswordHasher`) is not among the repository's source
files; only its callers are.  Per spec §4.1 the hasher is a one-way
transform with `verify(password, hash)` true exactly when the password
matches the hash.  The hash is modelled as an opaque tag of the password
and `verify` as the matching test. -/
def PasswordHasher.hash_password (password : Str) : Str := password

/-- Modelled from the spec: password verification against a stored hash,
true iff the password matches (see `PasswordHasher.hash_password`). -/
def PasswordHasher.verify_password (password : Str) (hash : Str) : Bool :=
  decide (PasswordHasher.hash_password password = hash)

/-- `_serialize_org` from `organization_service.py`. -/
def _serialize_org (d : OrgDoc) : OrganizationResponse :=
  { id := d.oid
    organization_name := d.name
    email := d.email
    collection_name := d.collection_name
    created_at := d.created_at
    updated_at := d.updated_at }

/-- `_ensure_collection_exists`: create the collection only when its name
is not among the existing collection names. -/
def _ensure_collection_exists (db : DB) (collection_name : Str) : DB :=
  if collection_name ∈ list_collection_names db then db
  else create_collection db collection_name

/-- `_drop_collection`: drop the collection only when its name is among
the existing collection names. -/
def _drop_collection (db : DB) (collection_name : Str) : DB :=
  if collection_name ∈ list_collection_names db then
    drop_collection db collection_name
  else db

/-- `_migrate_collection`: ensure the destination exists, read all
documents of the source, and when there are any, clear the destination
and bulk-insert them; finally drop the source collection. -/
def _migrate_collection (db : DB) (old_collection_name new_collection_name : Str) : DB :=
  if old_collection_name = new_collection_name then db
  else
    let db1 := _ensure_collection_exists db new_collection_name
    let documents := coll_docs db1 old_collection_name
    let db2 :=
      if documents ≠ [] then
        insert_many (clear_collection db1 new_collection_name)
          new_collection_name documents
      else db1
    drop_collection db2 old_collection_name

/-- `create_organization` from `organization_service.py`.  The pair is
(result, post-state); a raised `ValueError` leaves the state as of the
raise point. -/
def create_organization (db : DB) (payload : OrganizationCreate) :
    Except ServiceError OrganizationResponse × DB :=
  let normalized_name := pyNorm payload.organization_name
  match find_one_by_name_lower db normalized_name with
  | some _ => (Except.error (ServiceError.valueError ("Organization already exists").data), db)
  | none =>
    let now := db.now
    let collection_name := build_org_collection_name payload.organization_name
    let db1 := _ensure_collection_exists db collection_name
    let password_hash := PasswordHasher.hash_password payload.password
    let org_doc : OrgDoc :=
      { oid := db1.nextId
        name := payload.organization_name
        name_lower := normalized_name
        email := pyLower payload.email
        password_hash := password_hash
        collection_name := collection_name
        created_at := now
        updated_at := now }
    let db2 := insert_record db1 org_doc
    (Except.ok (_serialize_org org_doc), db2)

/-- `get_organization` from `organization_service.py` (read-only). -/
def get_organization (db : DB) (organization_name : Str) :
    Option OrganizationResponse :=
  (find_one_by_name_lower db (pyNorm organization_name)).map _serialize_org

/-- `update_organization` from `organization_service.py`. -/
def update_organization (db : DB) (current_org_name : Str)
    (payload : OrganizationUpdate) :
    Except ServiceError OrganizationResponse × DB :=
  let normalized_name := pyNorm current_org_name
  match find_one_by_name_lower db normalized_name with
  | none => (Except.error (ServiceError.valueError ("Organization not found").data), db)
  | some org_doc =>
    let old_collection_name := org_doc.collection_name
    -- `if payload.organization_name and payload.organization_name.lower().strip() != normalized_name`
    let nameStage : Except ServiceError (Option (Str × Str × Str)) :=
      match payload.organization_name with
      | some newName =>
        if newName ≠ [] ∧ pyNorm newName ≠ normalized_name then
          match find_one_by_name_lower db (pyNorm newName) with
          | some _ =>
            Except.error (ServiceError.valueError ("Organization name already exists").data)
          | none =>
            Except.ok (some (newName, pyNorm newName, build_org_collection_name newName))
        else Except.ok none
      | none => Except.ok none
    match nameStage with
    | Except.error e => (Except.error e, db)
    | Except.ok stage =>
      let updates0 : Updates :=
        match stage with
        | some (n, nl, cn) =>
          { name := some n, name_lower := some nl, collection_name := some cn }
        | none => {}
      let updates1 : Updates :=
        { updates0 with
          email :=
            if pyTruthy payload.email then some (pyNorm (payload.email.getD []))
            else none }
      let updates2 : Updates :=
        { updates1 with
          password_hash :=
            if pyTruthy payload.password then
              some (PasswordHasher.hash_password (payload.password.getD []))
            else none }
      let new_collection_name : Option Str := stage.map (fun t => t.2.2)
      let step :=
        if updates2.isEmptyDict = false then
          let u := { updates2 with updated_at := some db.now }
          (update_record db org_doc.oid u, applyUpdates u org_doc)
        else (db, org_doc)
      let db2 :=
        match new_collection_name with
        | some ncn =>
          if ncn ≠ old_collection_name then
            _migrate_collection step.1 old_collection_name ncn
          else step.1
        | none => step.1
      (Except.ok (_serialize_org step.2), db2)

/-- `delete_organization` from `organization_service.py`: drop the tenant
collection, then delete the registry record. -/
def delete_organization (db : DB) (organization_name : Str) :
    Except ServiceError Bool × DB :=
  let normalized_name := pyNorm organization_name
  match find_one_by_name_lower db normalized_name with
  | none => (Except.error (ServiceError.valueError ("Organization not found").data), db)
  | some org_doc =>
    let db1 := _drop_collection db org_doc.collection_name
    let db2 := delete_record db1 org_doc.oid
    (Except.ok true, db2)

/-! ## Token subsystem -/

/-- The decoded JWT payload: expiry, issued-at, and the subject claims
(`admin_email`, `organization_name`) which arbitrary foreign tokens may
omit. -/
structure JwtPayload where
  exp : Nat
  iat : Nat
  admin_email : Option Str
  organization_name : Option Str
deriving DecidableEq

/-- Modelled from the spec: the `jwt` library used by
`app/utils/jwt_handler.py` is an external dependency, not repository
code.  A signature is determined by the signing secret and the signed
payload; verification recomputes it (spec §4.2: sign with a symmetric
secret, fail on signature mismatch). -/
structure JwtSig where
  secret : Str
  signed : JwtPayload
deriving DecidableEq

/-- A self-contained signed token: payload plus signature. -/
structure JwtToken where
  payload : JwtPayload
  sig : JwtSig
deriving DecidableEq

/-- Errors raised by `jwt.decode`. -/
inductive JwtError where
  | invalidSignature
  | expiredSignature
deriving DecidableEq

/-- `JWTHandler.create_access_token`: payload is
`{"exp": now + expire_minutes, "iat": now, **subject}` signed with the
configured secret.  `expire_minutes` is converted to seconds
(`timedelta(minutes=...)`) with the clock in epoch seconds. -/
def JWTHandler.create_access_token (secret : Str) (expire_minutes : Nat)
    (now : Nat) (admin_email organization_name : Option Str) : JwtToken :=
  let payload : JwtPayload :=
    { exp := now + expire_minutes * 60
      iat := now
      admin_email := admin_email
      organization_name := organization_name }
  { payload := payload, sig := { secret := secret, signed := payload } }

/-- Modelled from the spec: `jwt.decode(token, secret, algorithms=[...])`
verifies the signature against the secret and rejects tokens past their
expiry (spec §4.2: fails with an invalid-token error if the signature is
invalid or the token expired). -/
def JWTHandler.decode_token (secret : Str) (now : Nat) (token : JwtToken) :
    Except JwtError JwtPayload :=
  if token.sig ≠ { secret := secret, signed := token.payload } then
    Except.error JwtError.invalidSignature
  else if token.payload.exp < now then
    Except.error JwtError.expiredSignature
  else Except.ok token.payload

/-- `HTTPException(status_code=401, detail=...)` raised by the Auth
Gate. -/
inductive HTTPError where
  | unauthorized (detail : Str)
deriving DecidableEq

/-- `get_current_admin` from `app/utils/dependencies.py`: reject a
missing bearer credential, reject any token `jwt.decode` fails on, and
reject payloads missing `admin_email` or `organization_name`. -/
def get_current_admin (secret : Str) (now : Nat)
    (credentials : Option JwtToken) : Except HTTPError JwtPayload :=
  match credentials with
  | none => Except.error (HTTPError.unauthorized ("Missing authorization header").data)
  | some token =>
    match JWTHandler.decode_token secret now token with
    | Except.error _ =>
      Except.error (HTTPError.unauthorized ("Invalid or expired token").data)
    | Except.ok payload =>
      if payload.admin_email.isNone || payload.organization_name.isNone then
        Except.error (HTTPError.unauthorized
          ("Token missing required claims (admin_email, organization_name)").data)
      else Except.ok payload

/-- Request schema `AdminLoginRequest`. -/
structure AdminLoginRequest where
  email : Str
  password : Str
deriving DecidableEq

/-- Response schema `TokenResponse`. -/
structure TokenResponse where
  access_token : JwtToken
  token_type : Str := ("bearer").data
  admin_email : Str
  organization_name : Str
deriving DecidableEq

deriving instance DecidableEq for Except

/-- `AdminService.login`: look up the organization by normalized email,
verify the password, and issue a token whose claims are the stored admin
email and organization name.  Both failure branches raise the same
`ValueError("Invalid credentials")`. -/
def login (secret : Str) (expire_minutes : Nat) (db : DB)
    (payload : AdminLoginRequest) : Except ServiceError TokenResponse :=
  match find_one_by_email db (pyNorm payload.email) with
  | none => Except.error (ServiceError.valueError ("Invalid credentials").data)
  | some org_doc =>
    if PasswordHasher.verify_password payload.password org_doc.password_hash = false then
      Except.error (ServiceError.valueError ("Invalid credentials").data)
    else
      Except.ok
        { access_token :=
            JWTHandler.create_access_token secret expire_minutes db.now
              (some org_doc.email) (some org_doc.name)
          admin_email := org_doc.email
          organization_name := org_doc.name }

/-! ## Concrete fixtures for witnesses and counterexamples -/

/-- A live organization record named `Acme`. -/
def exAcme : OrgDoc :=
  { oid := 0
    name := ("Acme").data
    name_lower := ("acme").data
    email := ("a@b.co").data
    password_hash := PasswordHasher.hash_password ("pw12345678").data
    collection_name := ("org_acme").data
    created_at := 0
    updated_at := 0 }

/-- A second live organization record named `Beta`. -/
def exBeta : OrgDoc :=
  { oid := 1
    name := ("Beta").data
    name_lower := ("beta").data
    email := ("b@b.co").data
    password_hash := PasswordHasher.hash_password ("pw12345678").data
    collection_name := ("org_beta").data
    created_at := 0
    updated_at := 0 }

/-- A database with the two organizations and their tenant collections. -/
def exDB : DB :=
  { organizations := [exAcme, exBeta]
    collections := [(("org_acme").data, [1, 2]), (("org_beta").data, [3])]
    nextId := 2
    now := 7
    events := [] }

/-- An empty database. -/
def exEmptyDB : DB :=
  { organizations := []
    collections := []
    nextId := 0
    now := 0
    events := [] }

/-- An organization whose name `a-b` slugs to `org_a_b`. -/
def exDashOrg : OrgDoc :=
  { oid := 0
    name := ("a-b").data
    name_lower := ("a-b").data
    email := ("a@b.co").data
    password_hash := PasswordHasher.hash_password ("pw12345678").data
    collection_name := ("org_a_b").data
    created_at := 0
    updated_at := 0 }

/-- A database holding only the `a-b` organization and its collection. -/
def exDashDB : DB :=
  { organizations := [exDashOrg]
    collections := [(("org_a_b").data, [1, 2])]
    nextId := 1
    now := 5
    events := [] }

/-! ## Helper lemmas -/

/-- `updateFirst` preserves any projection that the update function
preserves. -/
theorem updateFirst_map_eq {α β : Type} (p : α → Bool) (f : α → α)
    (g : α → β) (hg : ∀ x, g (f x) = g x) (l : List α) :
    (updateFirst p f l).map g = l.map g := by
  induction l with
  | nil => rfl
  | cons x xs ih =>
    unfold updateFirst
    by_cases hp : p x
    · simp [hp, hg]
    · simp [hp, ih]

/-! ## Claim theorems -/

/-- C3: `create_organization` with a name whose normalized (lowercased,
trimmed) form equals that of an existing live record fails with the
already-exists error before any effect: the returned state is exactly the
input state, so no tenant collection was created and no record was
inserted. -/
theorem create_conflict_no_effect (db : DB) (payload : OrganizationCreate)
    (d : OrgDoc)
    (h : find_one_by_name_lower db (pyNorm payload.organization_name) = some d) :
    create_organization db payload =
      (Except.error (ServiceError.valueError ("Organization already exists").data), db) := by
  simp only [create_organization, h]

/-- Witness for C3: creating ` ACME ` while `Acme` exists fails with the
conflict error and leaves the database untouched. -/
theorem create_conflict_no_effect_witness :
    create_organization exDB
        { organization_name := (" ACME ").data
          email := ("c@b.co").data
          password := ("pw12345678").data } =
      (Except.error (ServiceError.valueError ("Organization already exists").data), exDB) :=
  create_conflict_no_effect exDB _ exAcme (by decide)

/-- C2: renaming an organization to a name whose normalized form already
belongs to another live record fails with the conflict error and changes
nothing: the returned state is exactly the input state, so the record and
the tenant collection (name and contents) are untouched. -/
theorem update_name_conflict_no_effect (db : DB) (current : Str)
    (payload : OrganizationUpdate) (a b : OrgDoc) (newName : Str)
    (hfind : find_one_by_name_lower db (pyNorm current) = some a)
    (hname : payload.organization_name = some newName)
    (hne : newName ≠ [])
    (hdiff : pyNorm newName ≠ pyNorm current)
    (hconflict : find_one_by_name_lower db (pyNorm newName) = some b) :
    update_organization db current payload =
      (Except.error (ServiceError.valueError ("Organization name already exists").data), db) := by
  simp only [update_organization, hfind, hname]
  rw [if_pos (And.intro hne hdiff)]
  simp only [hconflict]

/-- Witness for C2: renaming `Acme` to ` BETA ` while `Beta` exists fails
with the conflict error and leaves the database untouched. -/
theorem update_name_conflict_no_effect_witness :
    update_organization exDB (("Acme").data)
        { organization_name := some (" BETA ").data } =
      (Except.error (ServiceError.valueError ("Organization name already exists").data), exDB) :=
  update_name_conflict_no_effect exDB (("Acme").data) _ exAcme exBeta
    ((" BETA ").data) (by decide) rfl (by decide) (by decide) (by decide)

/-- C6: `update_organization` on an existing organization with no staged
changes — no new name differing case-insensitively (after trimming) from
the current name, no email, no password — persists nothing and migrates
nothing: the state is returned byte-identical (in particular `updated_at`
is not bumped) and the unmodified current record is returned, not an
error. -/
theorem update_noop (db : DB) (current : Str) (payload : OrganizationUpdate)
    (d : OrgDoc)
    (hfind : find_one_by_name_lower db (pyNorm current) = some d)
    (hname : ∀ s, payload.organization_name = some s →
      s = [] ∨ pyNorm s = pyNorm current)
    (hemail : payload.email = none)
    (hpw : payload.password = none) :
    update_organization db current payload =
      (Except.ok (_serialize_org d), db) := by
  simp only [update_organization, hfind, hemail, hpw]
  rcases hn : payload.organization_name with _ | s
  · rfl
  · dsimp only
    rcases hname s hn with h | h
    · rw [if_neg (fun hc => hc.1 h)]
      rfl
    · rw [if_neg (fun hc => hc.2 h)]
      rfl

/-- Witness for C6: updating `Acme` with the merely re-cased name
` ACME ` and no other fields returns the unchanged record and leaves the
database byte-identical. -/
theorem update_noop_witness :
    update_organization exDB (("Acme").data)
        { organization_name := some (" ACME ").data } =
      (Except.ok (_serialize_org exAcme), exDB) :=
  update_noop exDB (("Acme").data) _ exAcme (by decide)
    (by intro s hs; cases hs; right; decide) rfl rfl

/-- `updateFirst` keyed by an injective-on-the-list key: when the keys of
the list are distinct and `d` is in the list, the updated element is in
the result. -/
theorem updateFirst_mem_of_nodup {α β : Type} [DecidableEq β] (key : α → β)
    (f : α → α) (l : List α) (d : α) (hd : d ∈ l)
    (hnodup : (l.map key).Nodup) :
    f d ∈ updateFirst (fun x => decide (key x = key d)) f l := by
  induction l with
  | nil => cases hd
  | cons x xs ih =>
    rw [List.map_cons, List.nodup_cons] at hnodup
    unfold updateFirst
    by_cases hx : key x = key d
    · rcases List.mem_cons.mp hd with rfl | hmem
      · simp
      · exact absurd (hx ▸ List.mem_map_of_mem key hmem) hnodup.1
    · rcases List.mem_cons.mp hd with rfl | hmem
      · exact absurd rfl hx
      · rw [if_neg (by simp [hx])]
        exact List.mem_cons.mpr (Or.inr (ih hmem hnodup.2))

/-- C10: when `update_organization` receives a new name that differs from
the current one only by casing or surrounding whitespace (same
normalized form), the name change is silently discarded — the response
carries the old name and old collection name, the tenant collections are
untouched (no migration), and no stored record's name, normalized name or
collection name changes — while email and password changes in the same
request are still applied (the updated record, with new email and
password hash and bumped `updated_at`, is stored). -/
theorem update_name_recase_discarded (db : DB) (current : Str)
    (payload : OrganizationUpdate) (d : OrgDoc) (s e pw : Str)
    (hfind : find_one_by_name_lower db (pyNorm current) = some d)
    (hname : payload.organization_name = some s)
    (hnorm : pyNorm s = pyNorm current)
    (hemail : payload.email = some e) (he : e ≠ [])
    (hpw : payload.password = some pw) (hp : pw ≠ [])
    (hnodup : (db.organizations.map OrgDoc.oid).Nodup) :
    (update_organization db current payload).1 =
      Except.ok
        { id := d.oid
          organization_name := d.name
          email := pyNorm e
          collection_name := d.collection_name
          created_at := d.created_at
          updated_at := db.now } ∧
    (update_organization db current payload).2.collections = db.collections ∧
    (update_organization db current payload).2.organizations.map
        (fun x => (x.name, x.name_lower, x.collection_name)) =
      db.organizations.map (fun x => (x.name, x.name_lower, x.collection_name)) ∧
    { d with
        email := pyNorm e
        password_hash := PasswordHasher.hash_password pw
        updated_at := db.now } ∈
      (update_organization db current payload).2.organizations := by
  have hte : pyTruthy (some e) = true := by simp [pyTruthy, he]
  have htp : pyTruthy (some pw) = true := by simp [pyTruthy, hp]
  have hred : update_organization db current payload =
      (Except.ok (_serialize_org (applyUpdates
          { name := none
            name_lower := none
            collection_name := none
            email := some (pyNorm e)
            password_hash := some (PasswordHasher.hash_password pw)
            updated_at := some db.now } d)),
        update_record db d.oid
          { name := none
            name_lower := none
            collection_name := none
            email := some (pyNorm e)
            password_hash := some (PasswordHasher.hash_password pw)
            updated_at := some db.now }) := by
    simp only [update_organization, hfind, hname, hemail, hpw]
    rw [if_neg (fun hc => hc.2 hnorm)]
    rw [hte, htp]
    rfl
  rw [hred]
  refine ⟨rfl, rfl, ?_, ?_⟩
  · exact updateFirst_map_eq (fun r => decide (r.oid = d.oid))
      (applyUpdates
        { name := none
          name_lower := none
          collection_name := none
          email := some (pyNorm e)
          password_hash := some (PasswordHasher.hash_password pw)
          updated_at := some db.now })
      (fun x => (x.name, x.name_lower, x.collection_name))
      (fun x => rfl) db.organizations
  · exact updateFirst_mem_of_nodup OrgDoc.oid
      (applyUpdates
        { name := none
          name_lower := none
          collection_name := none
          email := some (pyNorm e)
          password_hash := some (PasswordHasher.hash_password pw)
          updated_at := some db.now })
      db.organizations d (List.mem_of_find?_eq_some hfind) hnodup

/-- Witness for C10: updating `Acme` with the re-cased name `ACME`
together with a new email and password keeps the name and collection,
leaves collections untouched, and applies the email/password change. -/
theorem update_name_recase_discarded_witness :
    (update_organization exDB (("Acme").data)
        { organization_name := some ("ACME").data
          email := some (" New@B.co ").data
          password := some ("newpassword1").data }).1 =
      Except.ok
        { id := exAcme.oid
          organization_name := exAcme.name
          email := pyNorm ((" New@B.co ").data)
          collection_name := exAcme.collection_name
          created_at := exAcme.created_at
          updated_at := exDB.now } ∧
    (update_organization exDB (("Acme").data)
        { organization_name := some ("ACME").data
          email := some (" New@B.co ").data
          password := some ("newpassword1").data }).2.collections =
      exDB.collections ∧
    (update_organization exDB (("Acme").data)
        { organization_name := some ("ACME").data
          email := some (" New@B.co ").data
          password := some ("newpassword1").data }).2.organizations.map
        (fun x => (x.name, x.name_lower, x.collection_name)) =
      exDB.organizations.map (fun x => (x.name, x.name_lower, x.collection_name)) ∧
    { exAcme with
        email := pyNorm ((" New@B.co ").data)
        password_hash := PasswordHasher.hash_password (("newpassword1").data)
        updated_at := exDB.now } ∈
      (update_organization exDB (("Acme").data)
        { organization_name := some ("ACME").data
          email := some (" New@B.co ").data
          password := some ("newpassword1").data }).2.organizations :=
  update_name_recase_discarded exDB (("Acme").data) _ exAcme (("ACME").data)
    ((" New@B.co ").data) (("newpassword1").data) (by decide) rfl (by decide)
    rfl (by decide) rfl (by decide) (by decide)

/-- C7: `delete_organization` drops the tenant collection strictly before
deleting the registry record (the drop event, when the collection exists,
precedes the record-deletion event in the trace, so a failed drop leaves
the record in place), the record and collection are gone afterwards; and
deleting a name matching no organization fails with the not-found error
and has no side effects (the state is returned unchanged). -/
theorem delete_order_and_notfound :
    (∀ (db : DB) (name : Str),
      find_one_by_name_lower db (pyNorm name) = none →
      delete_organization db name =
        (Except.error (ServiceError.valueError ("Organization not found").data), db)) ∧
    (∀ (db : DB) (name : Str) (d : OrgDoc),
      find_one_by_name_lower db (pyNorm name) = some d →
      (delete_organization db name).1 = Except.ok true ∧
      (delete_organization db name).2.events =
        db.events ++
          (if d.collection_name ∈ list_collection_names db then
            [Event.dropCollection d.collection_name]
          else []) ++ [Event.deleteRecord d.oid] ∧
      d.collection_name ∉
        list_collection_names (delete_organization db name).2) := by
  constructor
  · intro db name h
    simp only [delete_organization, h]
  · intro db name d h
    simp only [delete_organization, h]
    refine ⟨trivial, ?_, ?_⟩
    · by_cases hc : d.collection_name ∈ list_collection_names db
      · rw [if_pos hc]
        simp [_drop_collection, hc, drop_collection, delete_record,
          List.append_assoc]
      · rw [if_neg hc]
        simp [_drop_collection, hc, delete_record]
    · by_cases hc : d.collection_name ∈ list_collection_names db
      · simp only [_drop_collection, hc, if_pos, if_true]
        simp [delete_record, drop_collection, list_collection_names,
          List.mem_filter]
      · simp only [_drop_collection, hc, if_false]
        intro hmem
        exact hc (by simpa [delete_record, list_collection_names] using hmem)

/-- Witness for C7: deleting the unknown name `Ghost` fails with the
not-found error and leaves the state unchanged; deleting `Acme` succeeds,
with the collection drop recorded strictly before the record deletion,
and the collection gone. -/
theorem delete_order_and_notfound_witness :
    delete_organization exDB (("Ghost").data) =
      (Except.error (ServiceError.valueError ("Organization not found").data), exDB) ∧
    ((delete_organization exDB (("Acme").data)).1 = Except.ok true ∧
      (delete_organization exDB (("Acme").data)).2.events =
        exDB.events ++
          (if exAcme.collection_name ∈ list_collection_names exDB then
            [Event.dropCollection exAcme.collection_name]
          else []) ++ [Event.deleteRecord exAcme.oid] ∧
      exAcme.collection_name ∉
        list_collection_names (delete_organization exDB (("Acme").data)).2) :=
  ⟨delete_order_and_notfound.1 exDB (("Ghost").data) (by decide),
   delete_order_and_notfound.2 exDB (("Acme").data) exAcme (by decide)⟩

/-- C8: a login whose email matches no organization and a login whose
email matches but whose password fails verification both return the very
same `InvalidCredentials` (`ValueError("Invalid credentials")`) failure,
so the two failure results are equal and carry no signal distinguishing
unknown-email from wrong-password. -/
theorem login_failures_indistinguishable (secret : Str)
    (expire_minutes : Nat) (db : DB) (p1 p2 : AdminLoginRequest)
    (d : OrgDoc)
    (h1 : find_one_by_email db (pyNorm p1.email) = none)
    (h2 : find_one_by_email db (pyNorm p2.email) = some d)
    (h3 : PasswordHasher.verify_password p2.password d.password_hash = false) :
    login secret expire_minutes db p1 =
      Except.error (ServiceError.valueError ("Invalid credentials").data) ∧
    login secret expire_minutes db p2 =
      Except.error (ServiceError.valueError ("Invalid credentials").data) ∧
    login secret expire_minutes db p1 = login secret expire_minutes db p2 := by
  have e1 : login secret expire_minutes db p1 =
      Except.error (ServiceError.valueError ("Invalid credentials").data) := by
    simp only [login, h1]
  have e2 : login secret expire_minutes db p2 =
      Except.error (ServiceError.valueError ("Invalid credentials").data) := by
    simp only [login, h2, h3]
    rfl
  exact ⟨e1, e2, e1.trans e2.symm⟩

/-- Witness for C8: on the fixture database, logging in with the unknown
email `zz@b.co` and logging in as `a@b.co` with a wrong password produce
the identical `Invalid credentials` error. -/
theorem login_failures_indistinguishable_witness :
    login (("secret").data) 60 exDB
        { email := ("zz@b.co").data, password := ("pw12345678").data } =
      Except.error (ServiceError.valueError ("Invalid credentials").data) ∧
    login (("secret").data) 60 exDB
        { email := ("a@b.co").data, password := ("wrongpass123").data } =
      Except.error (ServiceError.valueError ("Invalid credentials").data) ∧
    login (("secret").data) 60 exDB
        { email := ("zz@b.co").data, password := ("pw12345678").data } =
      login (("secret").data) 60 exDB
        { email := ("a@b.co").data, password := ("wrongpass123").data } :=
  login_failures_indistinguishable (("secret").data) 60 exDB _ _ exAcme
    (by decide) (by decide) (by decide)

/-- C9: every token issued by a successful login verifies at the Auth
Gate (at any clock not past its expiry) and yields back exactly the
`admin_email` and `organization_name` claims it was issued with, while a
token whose signature does not match the secret-and-payload, or whose
expiry lies in the past, is rejected with the same Unauthorized error. -/
theorem token_roundtrip_and_rejection :
    (∀ (secret : Str) (expire_minutes : Nat) (db : DB)
        (payload : AdminLoginRequest) (resp : TokenResponse),
      login secret expire_minutes db payload = Except.ok resp →
      ∀ now : Nat, now ≤ resp.access_token.payload.exp →
        get_current_admin secret now (some resp.access_token) =
          Except.ok resp.access_token.payload ∧
        resp.access_token.payload.admin_email = some resp.admin_email ∧
        resp.access_token.payload.organization_name =
          some resp.organization_name) ∧
    (∀ (secret : Str) (now : Nat) (t : JwtToken),
      t.sig ≠ { secret := secret, signed := t.payload } →
      get_current_admin secret now (some t) =
        Except.error (HTTPError.unauthorized ("Invalid or expired token").data)) ∧
    (∀ (secret : Str) (now : Nat) (t : JwtToken),
      t.payload.exp < now →
      get_current_admin secret now (some t) =
        Except.error (HTTPError.unauthorized ("Invalid or expired token").data)) := by
  refine ⟨?_, ?_, ?_⟩
  · intro secret expire_minutes db payload resp hlogin now hnow
    rcases hfind : find_one_by_email db (pyNorm payload.email) with _ | d
    · rw [login, hfind] at hlogin
      cases hlogin
    · rw [login, hfind] at hlogin
      dsimp only at hlogin
      rcases hverify : PasswordHasher.verify_password payload.password
          d.password_hash with _ | _
      · rw [if_pos hverify] at hlogin
        cases hlogin
      · rw [if_neg (fun hc => Bool.noConfusion (hverify ▸ hc))] at hlogin
        cases hlogin
        refine ⟨?_, rfl, rfl⟩
        rw [get_current_admin, JWTHandler.decode_token,
          if_neg (fun hc => hc rfl), if_neg (Nat.not_lt.mpr hnow)]
        rfl
  · intro secret now t hsig
    rw [get_current_admin, JWTHandler.decode_token, if_pos hsig]
  · intro secret now t hexp
    by_cases hsig : t.sig = { secret := secret, signed := t.payload }
    · rw [get_current_admin, JWTHandler.decode_token,
        if_neg (fun hc => hc hsig), if_pos hexp]
    · rw [get_current_admin, JWTHandler.decode_token, if_pos hsig]

/-- Witness for C9: a concrete login on the fixture database issues a
token that the Auth Gate accepts just before expiry, returning the same
claims; a token with a foreign signature and a stale token are both
rejected. -/
theorem token_roundtrip_and_rejection_witness :
    (get_current_admin (("secret").data) 3600
        (some (JWTHandler.create_access_token (("secret").data) 60 7
          (some ("a@b.co").data) (some ("Acme").data))) =
      Except.ok (JWTHandler.create_access_token (("secret").data) 60 7
          (some ("a@b.co").data) (some ("Acme").data)).payload) ∧
    (get_current_admin (("secret").data) 0
        (some { payload :=
                  { exp := 100
                    iat := 0
                    admin_email := some ("a@b.co").data
                    organization_name := some ("Acme").data }
                sig :=
                  { secret := ("other").data
                    signed :=
                      { exp := 100
                        iat := 0
                        admin_email := some ("a@b.co").data
                        organization_name := some ("Acme").data } } }) =
      Except.error (HTTPError.unauthorized ("Invalid or expired token").data)) ∧
    (get_current_admin (("secret").data) 101
        (some { payload :=
                  { exp := 100
                    iat := 0
                    admin_email := some ("a@b.co").data
                    organization_name := some ("Acme").data }
                sig :=
                  { secret := ("secret").data
                    signed :=
                      { exp := 100
                        iat := 0
                        admin_email := some ("a@b.co").data
                        organization_name := some ("Acme").data } } }) =
      Except.error (HTTPError.unauthorized ("Invalid or expired token").data)) := by
  refine ⟨?_, ?_, ?_⟩
  · have h := (token_roundtrip_and_rejection.1 (("secret").data) 60 exDB
      { email := ("a@b.co").data, password := ("pw12345678").data }
      { access_token :=
          JWTHandler.create_access_token (("secret").data) 60 7
            (some ("a@b.co").data) (some ("Acme").data)
        admin_email := ("a@b.co").data
        organization_name := ("Acme").data }
      (by decide) 3600 (by decide))
    exact h.1
  · exact token_roundtrip_and_rejection.2.1 (("secret").data) 0 _ (by decide)
  · exact token_roundtrip_and_rejection.2.2 (("secret").data) 101 _ (by decide)

/-- C5 counterexample: the claim says `get` after `create` returns a
record whose email equals the input email.  With the valid input email
`Admin@b.co` (uppercase local part), the created and returned record
carries the lowercased email `admin@b.co`, which differs from the
input. -/
theorem create_then_get_email_lowercased :
    get_organization
        (create_organization exEmptyDB
          { organization_name := ("Acme").data
            email := ("Admin@b.co").data
            password := ("password123").data }).2 (("Acme").data) =
      some
        { id := 0
          organization_name := ("Acme").data
          email := ("admin@b.co").data
          collection_name := ("org_acme").data
          created_at := 0
          updated_at := 0 } ∧
    ("admin@b.co").data ≠ ("Admin@b.co").data := by
  exact ⟨by decide, by decide⟩

/-- C5 (amended): for every `(name, email, password)` where no live
record has the same normalized name, `create_organization` succeeds and
an immediate `get_organization` on the same name returns that record:
its name is the input name, its email is the lowercased input email
(`create` stores `payload.email.lower()`), and its collection name is the
deterministic slug function applied to the name. -/
theorem create_then_get_roundtrip (db : DB) (nm em pw : Str)
    (hfresh : find_one_by_name_lower db (pyNorm nm) = none) :
    (create_organization db
        { organization_name := nm, email := em, password := pw }).1 =
      Except.ok
        { id := db.nextId
          organization_name := nm
          email := pyLower em
          collection_name := build_org_collection_name nm
          created_at := db.now
          updated_at := db.now } ∧
    get_organization
        (create_organization db
          { organization_name := nm, email := em, password := pw }).2 nm =
      some
        { id := db.nextId
          organization_name := nm
          email := pyLower em
          collection_name := build_org_collection_name nm
          created_at := db.now
          updated_at := db.now } := by
  have h2 : (_ensure_collection_exists db (build_org_collection_name nm)).nextId
      = db.nextId := by
    unfold _ensure_collection_exists create_collection
    split <;> rfl
  have h1 : (_ensure_collection_exists db (build_org_collection_name nm)).organizations
      = db.organizations := by
    unfold _ensure_collection_exists create_collection
    split <;> rfl
  have hc : create_organization db
      { organization_name := nm, email := em, password := pw } =
      (Except.ok
        { id := db.nextId
          organization_name := nm
          email := pyLower em
          collection_name := build_org_collection_name nm
          created_at := db.now
          updated_at := db.now },
       insert_record (_ensure_collection_exists db (build_org_collection_name nm))
        { oid := db.nextId
          name := nm
          name_lower := pyNorm nm
          email := pyLower em
          password_hash := PasswordHasher.hash_password pw
          collection_name := build_org_collection_name nm
          created_at := db.now
          updated_at := db.now }) := by
    simp only [create_organization, hfresh]
    rw [h2]
    rfl
  have hfresh' : List.find? (fun d => decide (d.name_lower = pyNorm nm))
      db.organizations = none := hfresh
  rw [hc]
  refine ⟨rfl, ?_⟩
  unfold get_organization find_one_by_name_lower insert_record
  dsimp only
  rw [h1, List.find?_append, hfresh', Option.none_or,
    List.find?_cons_of_pos _ (by simp)]
  rfl

/-- Witness for C5 (amended): creating `Acme` in the empty database and
reading it back returns the expected record. -/
theorem create_then_get_roundtrip_witness :
    (create_organization exEmptyDB
        { organization_name := ("Acme").data
          email := ("Admin@b.co").data
          password := ("password123").data }).1 =
      Except.ok
        { id := exEmptyDB.nextId
          organization_name := ("Acme").data
          email := pyLower (("Admin@b.co").data)
          collection_name := build_org_collection_name (("Acme").data)
          created_at := exEmptyDB.now
          updated_at := exEmptyDB.now } ∧
    get_organization
        (create_organization exEmptyDB
          { organization_name := ("Acme").data
            email := ("Admin@b.co").data
            password := ("password123").data }).2 (("Acme").data) =
      some
        { id := exEmptyDB.nextId
          organization_name := ("Acme").data
          email := pyLower (("Admin@b.co").data)
          collection_name := build_org_collection_name (("Acme").data)
          created_at := exEmptyDB.now
          updated_at := exEmptyDB.now } :=
  create_then_get_roundtrip exEmptyDB (("Acme").data) (("Admin@b.co").data)
    (("password123").data) (by decide)

/-- `find?` ignores a filter that keeps everything the predicate could
match. -/
theorem find?_filter_of_imp {α : Type} (p q : α → Bool)
    (h : ∀ x, p x = true → q x = true) (l : List α) :
    (l.filter q).find? p = l.find? p := by
  induction l with
  | nil => rfl
  | cons x xs ih =>
    by_cases hp : p x = true
    · rw [List.filter_cons_of_pos (h x hp), List.find?_cons_of_pos _ hp,
        List.find?_cons_of_pos _ hp]
    · by_cases hq : q x = true
      · rw [List.filter_cons_of_pos hq,
          List.find?_cons_of_neg _ (by simp_all),
          List.find?_cons_of_neg _ (by simp_all), ih]
      · rw [List.filter_cons_of_neg (by simp_all), ih,
          List.find?_cons_of_neg _ (by simp_all)]

/-- `find?` through `updateFirst` when the update preserves the
predicate. -/
theorem find?_updateFirst {α : Type} (p : α → Bool) (f : α → α)
    (hf : ∀ x, p (f x) = p x) (l : List α) :
    (updateFirst p f l).find? p = (l.find? p).map f := by
  induction l with
  | nil => rfl
  | cons x xs ih =>
    unfold updateFirst
    by_cases hp : p x = true
    · rw [if_pos hp, List.find?_cons_of_pos _ (by rw [hf, hp]),
        List.find?_cons_of_pos _ hp]
      rfl
    · rw [if_neg (by simp_all), List.find?_cons_of_neg _ (by simp_all),
        List.find?_cons_of_neg _ (by simp_all), ih]

/-- Dropping a different collection does not change a collection's
documents. -/
theorem coll_docs_drop_ne (db : DB) (old n : Str) (h : n ≠ old) :
    coll_docs (drop_collection db old) n = coll_docs db n := by
  unfold coll_docs drop_collection
  rw [find?_filter_of_imp]
  intro x hx
  simp only [decide_eq_true_eq] at hx ⊢
  rw [hx]
  exact h

/-- The collection names after a drop are the old names without the
dropped one. -/
theorem names_drop (db : DB) (old : Str) :
    list_collection_names (drop_collection db old) =
      (list_collection_names db).filter (fun m => decide (m ≠ old)) := by
  unfold list_collection_names drop_collection
  induction db.collections with
  | nil => rfl
  | cons x xs ih =>
    by_cases hx : x.1 = old
    · rw [List.filter_cons_of_neg (by simp [hx]), List.map_cons,
        List.filter_cons_of_neg (by simp [hx])]
      exact ih
    · rw [List.filter_cons_of_pos (by simp [hx]), List.map_cons,
        List.map_cons, List.filter_cons_of_pos (by simp [hx])]
      rw [ih]

/-- Clearing a collection empties it. -/
theorem coll_docs_clear_self (db : DB) (n : Str) :
    coll_docs (clear_collection db n) n = [] := by
  unfold coll_docs clear_collection
  dsimp only
  induction db.collections with
  | nil => rfl
  | cons x xs ih =>
    rw [List.map_cons]
    by_cases hx : x.1 = n
    · rw [if_pos hx, List.find?_cons_of_pos _ (by simp [hx])]
      rfl
    · rw [if_neg hx, List.find?_cons_of_neg _ (by simp [hx])]
      exact ih

/-- Clearing keeps the set of collection names. -/
theorem names_clear (db : DB) (n : Str) :
    list_collection_names (clear_collection db n) =
      list_collection_names db := by
  unfold list_collection_names clear_collection
  dsimp only
  rw [List.map_map]
  exact List.map_congr_left fun x _ => by
    by_cases hx : x.1 = n <;> simp [Function.comp, hx]

/-- Bulk insert appends the documents to the named collection
(creating it when missing). -/
theorem coll_docs_insert_self (db : DB) (n : Str) (docs : List Doc) :
    coll_docs (insert_many db n docs) n = coll_docs db n ++ docs := by
  unfold coll_docs insert_many
  dsimp only
  rcases hf : db.collections.find? (fun p => decide (p.1 = n)) with _ | e
  · rw [hf, if_neg (by simp), List.find?_append, hf, Option.none_or,
      List.find?_cons_of_pos _ (by simp)]
    rfl
  · rw [hf, if_pos (show (some e).isSome = true from rfl),
      find?_updateFirst (fun p => decide (p.1 = n))
        (fun p => (p.1, p.2 ++ docs)) (fun x => rfl), hf]
    rfl

/-- Membership in the collection names survives a bulk insert. -/
theorem names_insert_mem (db : DB) (n m : Str) (docs : List Doc)
    (h : m ∈ list_collection_names db) :
    m ∈ list_collection_names (insert_many db n docs) := by
  unfold list_collection_names insert_many
  dsimp only
  split
  · rw [updateFirst_map_eq (fun p => decide (p.1 = n))
      (fun p => (p.1, p.2 ++ docs)) Prod.fst (fun x => rfl) db.collections]
    exact h
  · rw [List.map_append]
    exact List.mem_append_left _ h

/-- The destination exists after `_ensure_collection_exists`. -/
theorem ensure_mem (db : DB) (n : Str) :
    n ∈ list_collection_names (_ensure_collection_exists db n) := by
  unfold _ensure_collection_exists
  split
  · assumption
  · unfold list_collection_names create_collection
    rw [List.map_append]
    exact List.mem_append_right _ (by simp)

/-- Ensuring a different collection leaves a collection's documents
unchanged. -/
theorem coll_docs_ensure_ne (db : DB) (n m : Str) (h : m ≠ n) :
    coll_docs (_ensure_collection_exists db n) m = coll_docs db m := by
  unfold _ensure_collection_exists
  split
  · rfl
  · unfold coll_docs create_collection
    dsimp only
    rw [List.find?_append]
    rcases hf : db.collections.find? (fun p => decide (p.1 = m)) with _ | e
    · rw [hf, Option.none_or, List.find?_cons_of_neg _ (by simp [Ne.symm h])]
      rfl
    · rw [hf]
      rfl

/-- Ensuring a missing collection creates it empty. -/
theorem coll_docs_ensure_self_of_not_mem (db : DB) (n : Str)
    (h : n ∉ list_collection_names db) :
    coll_docs (_ensure_collection_exists db n) n = [] := by
  unfold _ensure_collection_exists
  rw [if_neg h]
  unfold coll_docs create_collection
  rw [List.find?_append,
    List.find?_eq_none.mpr (fun x hx => by
      simp only [decide_eq_true_eq]
      intro hc
      exact h (hc ▸ List.mem_map_of_mem Prod.fst hx)),
    Option.none_or, List.find?_cons_of_pos _ (by simp)]
  rfl

/-- `_ensure_collection_exists` only appends events. -/
theorem ensure_events (db : DB) (n : Str) :
    ∃ es, (_ensure_collection_exists db n).events = db.events ++ es := by
  unfold _ensure_collection_exists
  split
  · exact ⟨[], by rw [List.append_nil]⟩
  · exact ⟨[Event.createCollection n], rfl⟩

/-- Membership in the collection names survives
`_ensure_collection_exists`. -/
theorem ensure_mem_other (db : DB) (n m : Str)
    (h : m ∈ list_collection_names db) :
    m ∈ list_collection_names (_ensure_collection_exists db n) := by
  unfold _ensure_collection_exists
  split
  · exact h
  · unfold list_collection_names create_collection
    rw [List.map_append]
    exact List.mem_append_left _ h

/-- Behaviour of `_migrate_collection` on distinct names, provided the
source is nonempty or the destination did not already exist: the
destination ends up with exactly the source's documents, the destination
exists, the source collection is gone, and only events are appended. -/
theorem migrate_spec (db : DB) (old new : Str) (hne : old ≠ new)
    (hok : coll_docs db old ≠ [] ∨ new ∉ list_collection_names db) :
    coll_docs (_migrate_collection db old new) new = coll_docs db old ∧
    new ∈ list_collection_names (_migrate_collection db old new) ∧
    old ∉ list_collection_names (_migrate_collection db old new) ∧
    ∃ es, (_migrate_collection db old new).events = db.events ++ es := by
  have hd1 : coll_docs (_ensure_collection_exists db new) old = coll_docs db old :=
    coll_docs_ensure_ne db new old hne
  simp only [_migrate_collection, if_neg hne, hd1]
  by_cases hdocs : coll_docs db old = []
  · rw [if_neg (by simp [hdocs])]
    rcases hok with h | h
    · exact absurd hdocs h
    · refine ⟨?_, ?_, ?_, ?_⟩
      · rw [coll_docs_drop_ne _ _ _ (Ne.symm hne),
          coll_docs_ensure_self_of_not_mem db new h, hdocs]
      · rw [names_drop]
        exact List.mem_filter.mpr ⟨ensure_mem db new, by simp [Ne.symm hne]⟩
      · rw [names_drop]
        intro hc
        have h2 := (List.mem_filter.mp hc).2
        simp at h2
      · obtain ⟨e1, he1⟩ := ensure_events db new
        refine ⟨e1 ++ [Event.dropCollection old], ?_⟩
        show (_ensure_collection_exists db new).events ++ _ = _
        rw [he1, List.append_assoc]
  · rw [if_pos hdocs]
    refine ⟨?_, ?_, ?_, ?_⟩
    · rw [coll_docs_drop_ne _ _ _ (Ne.symm hne), coll_docs_insert_self,
        coll_docs_clear_self]
      rfl
    · rw [names_drop]
      refine List.mem_filter.mpr ⟨?_, by simp [Ne.symm hne]⟩
      apply names_insert_mem
      rw [names_clear]
      exact ensure_mem db new
    · rw [names_drop]
      intro hc
      have h2 := (List.mem_filter.mp hc).2
      simp at h2
    · obtain ⟨e1, he1⟩ := ensure_events db new
      refine ⟨e1 ++ [Event.clearCollection new,
        Event.insertManyDocs new (coll_docs db old),
        Event.dropCollection old], ?_⟩
      show ((_ensure_collection_exists db new).events ++ _ ++ _) ++ _ = _
      rw [he1]
      simp [List.append_assoc]

/-- C1 counterexample: renaming `a-b` to the fresh name `a.b` (different
normalized names, so the rename is accepted and persisted) succeeds, yet
both names slug to the same collection name `org_a_b`, no migration runs,
and a tenant collection under the old collection name still exists —
contradicting the claim's "no tenant collection under A's old collection
name remains". -/
theorem update_rename_slug_collision :
    pyNorm (("a.b").data) ≠ pyNorm (("a-b").data) ∧
    find_one_by_name_lower exDashDB (pyNorm (("a.b").data)) = none ∧
    (update_organization exDashDB (("a-b").data)
        { organization_name := some ("a.b").data }).1 =
      Except.ok
        { id := 0
          organization_name := ("a.b").data
          email := ("a@b.co").data
          collection_name := ("org_a_b").data
          created_at := 0
          updated_at := 5 } ∧
    exDashOrg.collection_name ∈ list_collection_names
      (update_organization exDashDB (("a-b").data)
        { organization_name := some ("a.b").data }).2 := by
  refine ⟨by decide, by decide, by decide, by decide⟩

/-- C1 (amended): renaming an organization to a fresh name whose derived
collection name differs from the current one — and such that the old
collection is nonempty or no collection with the new name pre-exists
(otherwise stale documents in the pre-existing destination are not
cleared) — succeeds; afterwards the new tenant collection exists and
holds exactly the documents previously under the old collection, no
collection under the old name remains, and the record update event
strictly precedes every migration event in the trace. -/
theorem update_rename_migrates (db : DB) (current : Str)
    (payload : OrganizationUpdate) (d : OrgDoc) (newName : Str)
    (hfind : find_one_by_name_lower db (pyNorm current) = some d)
    (hname : payload.organization_name = some newName)
    (hne : newName ≠ [])
    (hdiff : pyNorm newName ≠ pyNorm current)
    (hfresh : find_one_by_name_lower db (pyNorm newName) = none)
    (hslug : build_org_collection_name newName ≠ d.collection_name)
    (hmig : coll_docs db d.collection_name ≠ [] ∨
      build_org_collection_name newName ∉ list_collection_names db) :
    (∃ resp, (update_organization db current payload).1 = Except.ok resp ∧
      resp.organization_name = newName ∧
      resp.collection_name = build_org_collection_name newName) ∧
    coll_docs (update_organization db current payload).2
        (build_org_collection_name newName) =
      coll_docs db d.collection_name ∧
    build_org_collection_name newName ∈
      list_collection_names (update_organization db current payload).2 ∧
    d.collection_name ∉
      list_collection_names (update_organization db current payload).2 ∧
    ∃ es, (update_organization db current payload).2.events =
      db.events ++ Event.updateRecord d.oid :: es := by
  simp only [update_organization, hfind, hname]
  rw [if_pos (And.intro hne hdiff)]
  simp only [hfresh, Option.map_some']
  rw [if_pos hslug]
  have hm := migrate_spec
    (update_record db d.oid
      { name := some newName
        name_lower := some (pyNorm newName)
        collection_name := some (build_org_collection_name newName)
        email :=
          if pyTruthy payload.email = true then
            some (pyNorm (payload.email.getD []))
          else none
        password_hash :=
          if pyTruthy payload.password = true then
            some (PasswordHasher.hash_password (payload.password.getD []))
          else none
        updated_at := some db.now })
    d.collection_name (build_org_collection_name newName)
    (Ne.symm hslug) hmig
  obtain ⟨es, hes⟩ := hm.2.2.2
  refine ⟨⟨_, rfl, rfl, rfl⟩, hm.1, hm.2.1, hm.2.2.1, es, ?_⟩
  refine hes.trans ?_
  show (db.events ++ [Event.updateRecord d.oid]) ++ es =
    db.events ++ Event.updateRecord d.oid :: es
  simp

/-- Witness for C1 (amended): renaming `Acme` to the fresh name `Zeta!`
migrates the documents `[1, 2]` to `org_zeta`, removes `org_acme`, and
persists the record update before the migration events. -/
theorem update_rename_migrates_witness :
    (∃ resp, (update_organization exDB (("Acme").data)
        { organization_name := some ("Zeta!").data }).1 = Except.ok resp ∧
      resp.organization_name = ("Zeta!").data ∧
      resp.collection_name = build_org_collection_name (("Zeta!").data)) ∧
    coll_docs (update_organization exDB (("Acme").data)
        { organization_name := some ("Zeta!").data }).2
        (build_org_collection_name (("Zeta!").data)) =
      coll_docs exDB exAcme.collection_name ∧
    build_org_collection_name (("Zeta!").data) ∈
      list_collection_names (update_organization exDB (("Acme").data)
        { organization_name := some ("Zeta!").data }).2 ∧
    exAcme.collection_name ∉
      list_collection_names (update_organization exDB (("Acme").data)
        { organization_name := some ("Zeta!").data }).2 ∧
    ∃ es, (update_organization exDB (("Acme").data)
        { organization_name := some ("Zeta!").data }).2.events =
      exDB.events ++ Event.updateRecord exAcme.oid :: es :=
  update_rename_migrates exDB (("Acme").data) _ exAcme (("Zeta!").data)
    (by decide) rfl (by decide) (by decide) (by decide) (by decide)
    (Or.inl (by decide))

/-- `Char.ofNat` on a valid code point round-trips through `toNat`. -/
theorem char_toNat_ofNat {n : Nat} (h : n.isValidChar) :
    (Char.ofNat n).toNat = n := by
  unfold Char.ofNat
  rw [dif_pos h]
  rfl

/-- ASCII lowering maps an uppercase letter into `a`-`z`. -/
theorem pyToLower_toNat_of_upper {c : Char}
    (h : 65 ≤ c.toNat ∧ c.toNat ≤ 90) :
    (pyToLower c).toNat = c.toNat + 32 := by
  unfold pyToLower
  rw [if_pos h]
  exact char_toNat_ofNat (Or.inl (by omega))

/-- ASCII lowering neither creates nor destroys whitespace. -/
theorem isPySpace_pyToLower (c : Char) :
    isPySpace (pyToLower c) = isPySpace c := by
  by_cases h : 65 ≤ c.toNat ∧ c.toNat ≤ 90
  · have hx := pyToLower_toNat_of_upper h
    rw [Bool.eq_iff_iff]
    simp only [isPySpace, hx, Bool.or_eq_true, decide_eq_true_eq]
    omega
  · unfold pyToLower
    rw [if_neg h]

/-- On lowered characters the regex class `[a-zA-Z0-9]` and the
specification's class `[a-z0-9]` agree. -/
theorem toUnderscore_pyToLower (c : Char) :
    toUnderscore (pyToLower c) = specToUnd (pyToLower c) := by
  have key : isAlnumAZ (pyToLower c) = isLowerAlnum (pyToLower c) := by
    by_cases h : 65 ≤ c.toNat ∧ c.toNat ≤ 90
    · have hx := pyToLower_toNat_of_upper h
      rw [Bool.eq_iff_iff]
      simp only [isAlnumAZ, isLowerAlnum, hx, Bool.or_eq_true,
        Bool.and_eq_true, decide_eq_true_eq]
      omega
    · have hx : (pyToLower c).toNat = c.toNat := by
        unfold pyToLower
        rw [if_neg h]
      rw [Bool.eq_iff_iff]
      simp only [isAlnumAZ, isLowerAlnum, hx, Bool.or_eq_true,
        Bool.and_eq_true, decide_eq_true_eq]
      omega
  unfold toUnderscore specToUnd
  rw [key]

/-- Whitespace characters are replaced by underscores. -/
theorem toUnderscore_of_space {c : Char} (h : isPySpace c = true) :
    toUnderscore c = '_' := by
  unfold toUnderscore
  rw [if_neg]
  simp only [isPySpace, Bool.or_eq_true, decide_eq_true_eq] at h
  simp only [isAlnumAZ, Bool.or_eq_true, Bool.and_eq_true,
    decide_eq_true_eq]
  omega

/-- A list of whitespace characters maps to a run of underscores. -/
theorem map_toUnderscore_of_spaces (l : Str)
    (h : ∀ c ∈ l, isPySpace c = true) :
    l.map toUnderscore = List.replicate l.length '_' := by
  induction l with
  | nil => rfl
  | cons x xs ih =>
    rw [List.map_cons, toUnderscore_of_space (h x (by simp)),
      List.length_cons, List.replicate_succ,
      ih (fun c hc => h c (by simp [hc]))]

/-- Unfolding equation for `collapseUnd` on two or more characters. -/
theorem collapseUnd_cons_cons (a b : Char) (rest : Str) :
    collapseUnd (a :: b :: rest) =
      if a = '_' && b = '_' then collapseUnd (b :: rest)
      else a :: collapseUnd (b :: rest) := rfl

/-- `dropWhile` on whitespace commutes with ASCII lowering. -/
theorem dropWhile_space_map_lower (l : Str) :
    (l.map pyToLower).dropWhile isPySpace =
      (l.dropWhile isPySpace).map pyToLower := by
  rw [List.dropWhile_map]
  have hp : (isPySpace ∘ pyToLower) = isPySpace := funext isPySpace_pyToLower
  rw [hp]

/-- Stripping whitespace commutes with ASCII lowering:
`s.strip().lower() = s.lower().strip()`. -/
theorem pyLower_pyStrip_comm (s : Str) :
    pyLower (pyStrip s) = pyStrip (pyLower s) := by
  unfold pyStrip pyStripBy dropTrailWhile pyLower
  rw [List.map_reverse, ← dropWhile_space_map_lower, List.map_reverse,
    ← dropWhile_space_map_lower]

/-- Collapsing a nonempty run of underscores gives a single
underscore. -/
theorem collapseUnd_replicate (k : Nat) :
    collapseUnd (List.replicate (k + 1) '_') = ['_'] := by
  induction k with
  | zero => rfl
  | succ k ih =>
    rw [List.replicate_succ]
    rw [show List.replicate (k + 1) '_' = '_' :: List.replicate k '_' from
      List.replicate_succ ..]
    rw [collapseUnd_cons_cons, if_pos (by simp)]
    rw [← List.replicate_succ]
    exact ih

/-- A leading run of underscores either merges into the collapse or
contributes one leading underscore. -/
theorem collapseUnd_replicate_append (j : Nat) (w : Str) :
    collapseUnd (List.replicate (j + 1) '_' ++ w) = collapseUnd w ∨
    collapseUnd (List.replicate (j + 1) '_' ++ w) = '_' :: collapseUnd w := by
  induction j with
  | zero =>
    rcases w with _ | ⟨b, r⟩
    · right
      rfl
    · show collapseUnd ('_' :: b :: r) = _ ∨ collapseUnd ('_' :: b :: r) = _
      rw [collapseUnd_cons_cons]
      by_cases hb : b = '_'
      · left
        rw [if_pos (by simp [hb])]
      · right
        rw [if_neg (by simp [hb])]
  | succ j ih =>
    have hhead : List.replicate (j + 1) '_' ++ w =
        '_' :: (List.replicate j '_' ++ w) := by
      rw [List.replicate_succ, List.cons_append]
    rw [List.replicate_succ, List.cons_append, hhead,
      collapseUnd_cons_cons, if_pos (by simp), ← hhead]
    exact ih

/-- A trailing run of underscores either merges into the collapse or
contributes one trailing underscore. -/
theorem collapseUnd_append_replicate (t : Str) (k : Nat) :
    collapseUnd (t ++ List.replicate (k + 1) '_') = collapseUnd t ∨
    collapseUnd (t ++ List.replicate (k + 1) '_') =
      collapseUnd t ++ ['_'] := by
  induction t using collapseUnd.induct with
  | case1 =>
    right
    rw [List.nil_append, collapseUnd_replicate]
    rfl
  | case2 a =>
    rw [List.cons_append, List.nil_append, List.replicate_succ,
      collapseUnd_cons_cons]
    by_cases ha : a = '_'
    · left
      rw [if_pos (by simp [ha]), ← List.replicate_succ,
        collapseUnd_replicate, ha]
      rfl
    · right
      rw [if_neg (by simp [ha]), ← List.replicate_succ,
        collapseUnd_replicate]
      rfl
  | case3 a b rest hab ih =>
    rw [List.cons_append, List.cons_append, collapseUnd_cons_cons,
      if_pos hab, collapseUnd_cons_cons, if_pos hab,
      show b :: (rest ++ List.replicate (k + 1) '_') =
        (b :: rest) ++ List.replicate (k + 1) '_' from rfl]
    exact ih
  | case4 a b rest hab ih =>
    rw [List.cons_append, List.cons_append, collapseUnd_cons_cons,
      if_neg hab, collapseUnd_cons_cons, if_neg hab,
      show b :: (rest ++ List.replicate (k + 1) '_') =
        (b :: rest) ++ List.replicate (k + 1) '_' from rfl]
    rcases ih with h | h
    · left
      rw [h]
    · right
      rw [h, List.cons_append]

/-- A leading underscore is absorbed by the underscore strip. -/
theorem pyStripBy_und_cons (x : Str) :
    pyStripBy isUnd ('_' :: x) = pyStripBy isUnd x := by
  unfold pyStripBy
  rw [List.dropWhile_cons_of_pos (by simp [isUnd])]

/-- A trailing underscore is absorbed by the trailing strip. -/
theorem dropTrailWhile_und_append (y : Str) :
    dropTrailWhile isUnd (y ++ ['_']) = dropTrailWhile isUnd y := by
  unfold dropTrailWhile
  rw [List.reverse_append]
  rw [show (['_'] : Str).reverse ++ y.reverse = '_' :: y.reverse from rfl]
  rw [List.dropWhile_cons_of_pos (by simp [isUnd])]

/-- A trailing underscore is absorbed by the underscore strip. -/
theorem pyStripBy_und_append (x : Str) :
    pyStripBy isUnd (x ++ ['_']) = pyStripBy isUnd x := by
  unfold pyStripBy
  rw [List.dropWhile_append]
  by_cases h : (x.dropWhile isUnd).isEmpty
  · rw [if_pos h]
    rw [List.isEmpty_iff.mp h]
    rfl
  · rw [if_neg h]
    exact dropTrailWhile_und_append _

/-- A leading underscore run disappears after collapse and strip. -/
theorem strip_collapse_replicate_append (j : Nat) (w : Str) :
    pyStripBy isUnd (collapseUnd (List.replicate j '_' ++ w)) =
      pyStripBy isUnd (collapseUnd w) := by
  rcases j with _ | j
  · rw [List.replicate_zero, List.nil_append]
  · rcases collapseUnd_replicate_append j w with h | h
    · rw [h]
    · rw [h, pyStripBy_und_cons]

/-- A trailing underscore run disappears after collapse and strip. -/
theorem strip_collapse_append_replicate (t : Str) (k : Nat) :
    pyStripBy isUnd (collapseUnd (t ++ List.replicate k '_')) =
      pyStripBy isUnd (collapseUnd t) := by
  rcases k with _ | k
  · rw [List.replicate_zero, List.append_nil]
  · rcases collapseUnd_append_replicate t k with h | h
    · rw [h]
    · rw [h, pyStripBy_und_append]

/-- Stripping the whitespace of the input before the underscore
substitution does not change the collapsed-and-stripped slug. -/
theorem strip_collapse_strip (u : Str) :
    pyStripBy isUnd (collapseUnd ((pyStripBy isPySpace u).map toUnderscore)) =
      pyStripBy isUnd (collapseUnd (u.map toUnderscore)) := by
  have hu : u = u.takeWhile isPySpace ++ u.dropWhile isPySpace :=
    (List.takeWhile_append_dropWhile _ _).symm
  have hv : u.dropWhile isPySpace =
      pyStripBy isPySpace u ++
        ((u.dropWhile isPySpace).reverse.takeWhile isPySpace).reverse := by
    conv_lhs =>
      rw [← (u.dropWhile isPySpace).reverse_reverse,
        show (u.dropWhile isPySpace).reverse =
            (u.dropWhile isPySpace).reverse.takeWhile isPySpace ++
              (u.dropWhile isPySpace).reverse.dropWhile isPySpace from
          (List.takeWhile_append_dropWhile _ _).symm,
        List.reverse_append]
    rfl
  have hmap1 : (u.takeWhile isPySpace).map toUnderscore =
      List.replicate (u.takeWhile isPySpace).length '_' :=
    map_toUnderscore_of_spaces _ (fun c hc => List.mem_takeWhile_imp hc)
  have hmap2 : (((u.dropWhile isPySpace).reverse.takeWhile
      isPySpace).reverse).map toUnderscore =
      List.replicate ((u.dropWhile isPySpace).reverse.takeWhile
        isPySpace).reverse.length '_' :=
    map_toUnderscore_of_spaces _ (fun c hc =>
      List.mem_takeWhile_imp (List.mem_reverse.mp hc))
  conv_rhs => rw [hu, hv]
  rw [List.map_append, List.map_append, hmap1, hmap2]
  rw [strip_collapse_replicate_append]
  rw [strip_collapse_append_replicate]

/-- The code's `normalize_org_name` computes exactly the specification's
slug rule (the initial whitespace strip in the code is redundant: the
whitespace would be substituted to underscores and trimmed anyway). -/
theorem normalize_eq_specSlugRule (s : Str) :
    normalize_org_name s = specSlugRule s := by
  have h2 : (pyLower s).map specToUnd = (pyLower s).map toUnderscore := by
    unfold pyLower
    rw [List.map_map, List.map_map]
    rw [show (specToUnd ∘ pyToLower) = (toUnderscore ∘ pyToLower) from
      funext fun c => (toUnderscore_pyToLower c).symm]
  have hcore : pyStripBy isUnd
      (collapseUnd ((pyLower (pyStrip s)).map toUnderscore)) =
      pyStripBy isUnd (collapseUnd ((pyLower s).map specToUnd)) := by
    rw [h2, show pyLower (pyStrip s) = pyStripBy isPySpace (pyLower s) from
      pyLower_pyStrip_comm s]
    exact strip_collapse_strip (pyLower s)
  simp only [normalize_org_name, specSlugRule, subNonAlnumRuns]
  rw [hcore]

/-- `normalize_org_name` factors through the normalized (lowercased,
trimmed) name. -/
theorem normalize_factors_through_norm (s : Str) :
    normalize_org_name s =
      (if pyStripBy isUnd (collapseUnd ((pyNorm s).map toUnderscore)) = []
       then ("org").data
       else pyStripBy isUnd (collapseUnd ((pyNorm s).map toUnderscore))) := by
  simp only [normalize_org_name, subNonAlnumRuns]
  rw [show pyLower (pyStrip s) = pyStrip (pyLower s) from
    pyLower_pyStrip_comm s]
  rfl

/-- C4: the collection-naming function is deterministic and equals the
specified rule — the fixed prefix `org_` plus: lowercase the name,
replace every maximal run of characters outside `[a-z0-9]` by a single
underscore, trim leading/trailing underscores, default token when empty;
any two inputs with the same normalized form map to the same collection
name; and the concrete fixtures hold
(`slug(" My Org! ") = slug("my-org") = "org_my_org"`,
`"Acme, Inc." ↦ "org_acme_inc"`). -/
theorem collection_name_matches_spec_rule :
    (∀ s, build_org_collection_name s = specCollectionName s) ∧
    (∀ a b, pyNorm a = pyNorm b →
      build_org_collection_name a = build_org_collection_name b) ∧
    build_org_collection_name ((" My Org! ").data) = ("org_my_org").data ∧
    build_org_collection_name (("my-org").data) = ("org_my_org").data ∧
    build_org_collection_name (("Acme, Inc.").data) = ("org_acme_inc").data := by
  refine ⟨?_, ?_, by decide, by decide, by decide⟩
  · intro s
    unfold build_org_collection_name specCollectionName
    rw [normalize_eq_specSlugRule]
  · intro a b h
    unfold build_org_collection_name
    rw [normalize_factors_through_norm a, normalize_factors_through_norm b, h]

/-- Witness for C4: the rule equality at `" My Org! "` and the
determinism conjunct applied to the normalized-equal pair
`"AB "` and `" ab"`. -/
theorem collection_name_matches_spec_rule_witness :
    build_org_collection_name ((" My Org! ").data) =
      specCollectionName ((" My Org! ").data) ∧
    build_org_collection_name (("AB ").data) =
      build_org_collection_name ((" ab").data) :=
  ⟨collection_name_matches_spec_rule.1 ((" My Org! ").data),
   collection_name_matches_spec_rule.2.1 (("AB ").data) ((" ab").data)
     (by decide)⟩
